import Mathlib

/-!
Verification of the croissant operation-graph core: the `Join`, `Concatenate`
and `Data` operations and `Field.data_type` resolution, shallowly embedded
from the Python sources under
`python/ml_croissant/ml_croissant/_src/` and
`python/mlcroissant/mlcroissant/_src/`.

Conventions of the embedding:
* Python `None` becomes `Option.none`; fatal errors (`assert`,
  `NotImplementedError`) become `Except.error` carrying the message string.
* pandas DataFrames become `Frame`: an explicit column list plus rows that
  are value lists aligned with the columns; a missing value (NaN) is
  `Option.none`.  `pd.merge(..., how := left)` is modelled by `Frame.merge`
  below, following pandas' documented left-outer-join semantics (row order
  of the left frame preserved, one output row per key match, NaN-filled
  right side when no match).  Suffixing of duplicated column *names* is not
  modelled: only the cell contents matter to the claims.
* Python's `re` module is modelled by a small backtracking regex engine
  (`Regex`, `Regex.mmatch`) with Python `re.match` semantics: anchored at
  the start, prefix match, greedy repetition, leftmost alternative first,
  numbered capture groups where a group that did not participate in the
  match is `none`.  `re.compile` (string pattern to compiled regex) is
  treated as a collaborator: a `Transform` directly carries the compiled
  `Regex`.
-/

namespace Croissant

/-- Abstract syntax of the (compiled) regular expressions used by
transforms.  `group i r` is the `i`-th numbered capture group (Python
numbers them from 1). -/
inductive Regex where
  | emptyR : Regex
  | chr (c : Char) : Regex
  | anyChr : Regex
  | cat (a b : Regex) : Regex
  | alt (a b : Regex) : Regex
  | star (a : Regex) : Regex
  | group (i : Nat) (a : Regex) : Regex
deriving DecidableEq, Repr

/-- Capture environment: group number to captured characters. -/
def Groups := List (Nat × List Char)

instance : DecidableEq Groups := by
  unfold Groups
  infer_instance

/-- Record a capture for group `i` (later captures of the same group shadow
earlier ones, as in Python where a group keeps its last capture). -/
def setGroup (g : Groups) (i : Nat) (cs : List Char) : Groups :=
  (i, cs) :: g

/-- Fuel-driven backtracking matcher.  Returns the list of all ways the
regex can match a prefix of `s`, as pairs (remaining input, captures), in
Python's backtracking priority order: the head of the list is the match
Python's engine commits to.  The fuel only bounds recursion depth; with
enough fuel (see `Regex.pymatch`) the result is the full priority list. -/
def Regex.mmatch : Nat → Regex → List Char → Groups → List (List Char × Groups)
  | 0, _, _, _ => []
  | _ + 1, .emptyR, s, g => [(s, g)]
  | _ + 1, .chr _, [], _ => []
  | _ + 1, .chr c, x :: xs, g => if x = c then [(xs, g)] else []
  | _ + 1, .anyChr, [], _ => []
  | _ + 1, .anyChr, _ :: xs, g => [(xs, g)]
  | fuel + 1, .cat a b, s, g =>
      (Regex.mmatch fuel a s g).flatMap fun p => Regex.mmatch fuel b p.1 p.2
  | fuel + 1, .alt a b, s, g =>
      Regex.mmatch fuel a s g ++ Regex.mmatch fuel b s g
  | fuel + 1, .group i a, s, g =>
      (Regex.mmatch fuel a s g).map fun p =>
        (p.1, setGroup p.2 i (s.take (s.length - p.1.length)))
  | fuel + 1, .star a, s, g =>
      ((Regex.mmatch fuel a s g).flatMap fun p =>
        if p.1.length < s.length then Regex.mmatch fuel (.star a) p.1 p.2
        else [(p.1, p.2)]) ++ [(s, g)]

/-- Highest group number occurring in the regex (Python's
`re.Pattern.groups`). -/
def Regex.maxGroup : Regex → Nat
  | .emptyR | .chr _ | .anyChr => 0
  | .cat a b | .alt a b => max a.maxGroup b.maxGroup
  | .star a => a.maxGroup
  | .group i a => max i a.maxGroup

/-- Number of constructors of the regex. -/
def Regex.size : Regex → Nat
  | .emptyR | .chr _ | .anyChr => 1
  | .cat a b | .alt a b => a.size + b.size + 1
  | .star a | .group _ a => a.size + 1

/-- Fuel sufficient for any backtracking path of `r` over `s`: each level of
`mmatch` either consumes a constructor of the regex or one character for a
`star` iteration. -/
def Regex.fuelFor (r : Regex) (s : List Char) : Nat :=
  (r.size + 1) * (s.length + 2)

/-- Model of Python `re.match(r, value)` followed by `match.groups()`:
`none` when the pattern does not match a prefix of `value`; otherwise the
ordered list of captures for groups `1 .. maxGroup`, where a group that did
not participate is `none`. -/
def Regex.pymatch (r : Regex) (value : String) : Option (List (Option String)) :=
  match (Regex.mmatch (r.fuelFor value.toList) r value.toList []).head? with
  | none => none
  | some (_, g) =>
      some ((List.range r.maxGroup).map fun i =>
        (g.lookup (i + 1)).map fun cs => String.mk cs)

/-- `Transform` node (structure_graph/nodes/source.py): the only transform
currently supported is regex extraction; `regex` holds the compiled pattern
(`none` when the transform declares no regex). -/
structure Transform where
  regex : Option Regex
deriving DecidableEq, Repr

/-- `Source` node as used by `Join`: `reference` is the (node id, column)
pointer (Python: a tuple or `None`), `apply_transform` the ordered
transform list. -/
structure Source where
  reference : Option (List String)
  apply_transform : List Transform
deriving DecidableEq, Repr

/-- Embedding of `apply_transform_fn` (operations/join.py, lines 11-20):
if the transform has a regex and it matches, return the first capture group
that is not `None`; otherwise return the value unchanged. -/
def apply_transform_fn (value : String) (transform : Transform) : String :=
  match transform.regex with
  | none => value
  | some r =>
      match r.pymatch value with
      | none => value
      | some groups =>
          match groups.filterMap id with
          | [] => value
          | g :: _ => g

/-- Embedding of `apply_transforms_fn` (operations/join.py, lines 23-29):
fold the source's transforms over the value, identity when there is no
source. -/
def apply_transforms_fn (value : String) (source : Option Source := none) : String :=
  match source with
  | none => value
  | some source => source.apply_transform.foldl apply_transform_fn value

/-- A cell of a pandas DataFrame column of strings: `none` is NaN. -/
abbrev Cell := Option String

/-- Model of a pandas DataFrame: explicit column list, rows as value lists
aligned with the columns. -/
structure Frame (α : Type) where
  cols : List String
  rows : List (List α)
deriving DecidableEq, Repr

/-- Value of `row` at column `c` (given the frame's column list); `none`
when the column is absent or the cell is NaN. -/
def getCol (cols : List String) (row : List Cell) (c : String) : Cell :=
  match cols.findIdx? (· = c) with
  | some i => row.getD i none
  | none => none

/-- Model of `df_left.merge(df_right, left_on, right_on, how = left)`
(pandas): left rows in order, one output row per matching right row
(matches in right-frame order), right side NaN-filled when no key matches.
pandas matches NaN keys to NaN keys, as does `none = none` here. -/
def Frame.merge (L R : Frame Cell) (leftOn rightOn : String) : Frame Cell :=
  { cols := L.cols ++ R.cols
    rows := L.rows.flatMap fun r =>
      match R.rows.filter (fun s => getCol R.cols s rightOn = getCol L.cols r leftOn) with
      | [] => [r ++ List.replicate R.cols.length none]
      | ms => ms.map fun s => r ++ s }

/-- `df_left[left_key].transform(apply_transforms_fn, source = left)`
applied to one cell: transforms act on string values (NaN passes through,
matching the `str`-typed contract of `apply_transforms_fn`). -/
def transformCell (src : Source) (c : Cell) : Cell :=
  c.map fun v => apply_transforms_fn v (some src)

/-- `df_left[left_key] = df_left[left_key].transform(apply_transforms_fn,
source = left)`: rewrite column `k` of the frame cell-by-cell. -/
def Frame.transformKey (f : Frame Cell) (k : String) (src : Source) : Frame Cell :=
  { cols := f.cols
    rows := f.rows.map fun r =>
      match f.cols.findIdx? (· = k) with
      | some i => r.set i (transformCell src (r.getD i none))
      | none => r }

/-- The `Join` operation (operations/join.py); `node_uid` is
`self.node.uid`, used in its assertion messages. -/
structure Join where
  node_uid : String
deriving DecidableEq, Repr

/-- Embedding of `Join.__call__` (operations/join.py, lines 36-77), in the
source's statement order: one argument is returned as is; with two
arguments the operand roles are normalised by the swap test, the left key
column is transformed, and the frames are left-outer merged; any other
arity raises.  Python `assert`/exception messages become `Except.error`
strings (a 1-element `reference` raises `IndexError` at
`left.reference[1]`, modelled by its Python message). -/
def Join.call (j : Join) (args : List (Frame Cell))
    (left : Option Source) (right : Option Source) : Except String (Frame Cell) :=
  match args with
  | [df] => .ok df
  | [dfA, dfB] =>
      match left with
      | none => .error ("Left reference for \"" ++ j.node_uid ++ "\" is None. It should be a valid reference.")
      | some l =>
      match l.reference with
      | none => .error ("Left reference for \"" ++ j.node_uid ++ "\" is None. It should be a valid reference.")
      | some lref =>
      match right with
      | none => .error ("Right reference for \"" ++ j.node_uid ++ "\" is None. It should be a valid reference.")
      | some r =>
      match r.reference with
      | none => .error ("Right reference for \"" ++ j.node_uid ++ "\" is None. It should be a valid reference.")
      | some rref =>
      match lref.get? 1 with
      | none => .error "tuple index out of range"
      | some left_key =>
      match rref.get? 1 with
      | none => .error "tuple index out of range"
      | some right_key =>
      let p :=
        if left_key ∉ dfA.cols ∨ right_key ∉ dfB.cols then (dfB, dfA) else (dfA, dfB)
      let df_left := p.1
      let df_right := p.2
      if lref.length ≠ 2 then
        .error "JOIN operation does not define a column name."
      else if left_key ∉ df_left.cols then
        .error ("Column \"" ++ left_key ++ "\" does not exist in node \"" ++
          lref.getD 0 "" ++ "\". Existing columns: " ++ toString df_left.cols)
      else if right_key ∉ df_right.cols then
        .error ("Column \"" ++ right_key ++ "\" does not exist in node \"" ++
          rref.getD 0 "" ++ "\". Existing columns: " ++ toString df_right.cols)
      else
        .ok ((df_left.transformKey left_key l).merge df_right left_key right_key)
  | _ =>
      .error ("Unsupported: Trying to joing " ++ toString args.length ++ " pd.DataFrames.")

/-- Modelled from the spec: `Path` (mlcroissant/_src/core/path.py, not
shown) is a per-file path descriptor "exposing a file path, a file name,
and a path relative to some root"; `Concatenate.__call__` reads exactly
these three properties (`os.fspath` renders the two path-like ones as
strings, which they already are here). -/
structure Path where
  filepath : String
  filename : String
  fullpath : String
deriving DecidableEq, Repr

/-- Modelled from the spec: the `FileProperty` column constants
(mlcroissant/_src/structure_graph/nodes/source.py, not shown) naming the
three implicit per-file columns "filepath, filename, full path". -/
def FileProperty.filepath : String := "filepath"

/-- See `FileProperty.filepath`. -/
def FileProperty.filename : String := "filename"

/-- See `FileProperty.filepath`. -/
def FileProperty.fullpath : String := "fullpath"

/-- Embedding of `Concatenate.__call__` (operations/concatenate.py, lines
20-29): zero paths fails the assertion; otherwise a DataFrame is built
column-wise from the three path properties, hence row `i` holds the
properties of path `i`. -/
def Concatenate.call (paths : List Path) : Except String (Frame String) :=
  if paths.length > 0 then
    .ok { cols := [FileProperty.filepath, FileProperty.filename, FileProperty.fullpath]
          rows := paths.map fun path => [path.filepath, path.filename, path.fullpath] }
  else
    .error "No path to concatenate."

/-- A scalar JSON literal value, as found in inline record-set data. -/
inductive JsonVal where
  | str (s : String)
  | num (n : Int)
  | bool (b : Bool)
  | null
deriving DecidableEq, Repr

/-- A parsed JSON record: field name to value, in document order. -/
abbrev JsonRecord := List (String × JsonVal)

/-- The `RecordSet` node as consumed by the `Data` operation: `data` is the
inline literal array, here already parsed (`json.loads` is Python's
standard JSON parser, a collaborator). -/
structure RecordSet where
  data : List JsonRecord
deriving DecidableEq, Repr

/-- Columns of `pd.DataFrame.from_records` on a list of dicts: the union
of the records' keys, in order of first appearance. -/
def recordColumns (recs : List JsonRecord) : List String :=
  recs.foldl (fun acc rec =>
    rec.foldl (fun acc kv => if kv.1 ∈ acc then acc else acc ++ [kv.1]) acc) []

/-- Access of a parsed JSON record (a Python dict) at key `k`. -/
def recLookup (k : String) : JsonRecord → Option JsonVal
  | [] => none
  | kv :: rest => if kv.1 = k then some kv.2 else recLookup k rest

/-- Model of `pd.DataFrame.from_records` on a list of dicts: one row per
record, cell = the record's value for the column (`none`, i.e. NaN, when
the record lacks that key). -/
def pdFromRecords (recs : List JsonRecord) : Frame (Option JsonVal) :=
  { cols := recordColumns recs
    rows := recs.map fun rec => (recordColumns recs).map fun c => recLookup c rec }

/-- Cell of row `i`, column `c` of a frame (`none` when the column does not
exist; out-of-range rows read as empty). -/
def Frame.cellAt (f : Frame α) (i : Nat) (c : String) : Option α :=
  match f.cols.findIdx? (· = c) with
  | some ci => (f.rows.getD i [])[ci]?
  | none => none

/-- Embedding of `Data.__call__` (operations/data.py, lines 15-16): no
inputs, the result is built directly from the parsed literal array. -/
def Data.call (node : RecordSet) : Frame (Option JsonVal) :=
  pdFromRecords node.data

mutual
/-- The `Field` node (structure_graph/nodes/field.py) restricted to what
`Field.data_type` inspects: the node's own `field_data_type` and its first
graph predecessor (`next(self.graph.predecessors(self), None)`). -/
inductive Field where
  | mk (field_data_type : Option String) (pred : Pred)

/-- The first graph predecessor of a `Field`: absent, a non-`Field` node,
or a `Field`. -/
inductive Pred where
  | noPred
  | nonField
  | fieldPred (f : Field)
end

/-- `constants.ML_COMMONS_DATA_TYPE` (value as shown by
datasets_test.py's expected message for
`recordset_missing_context_for_datatype.json`). -/
def ML_COMMONS_DATA_TYPE : String := "http://mlcommons.org/schema/dataType"

/-- The error recorded by `Field.data_type` when no predecessor supplies a
data type (field.py, lines 38-41). -/
def dataTypeIssue : String :=
  "The field does not specify any " ++ ML_COMMONS_DATA_TYPE ++
    ", neither does any of its predecessor."

/-- Embedding of the `Field.data_type` property (field.py, lines 27-43):
returns the resolved type together with the errors appended to the issue
log (`self.add_error` accumulates, the property returns `None` on
failure). -/
def Field.data_type : Field → Option String × List String
  | .mk (some t) _ => (some t, [])
  | .mk none (.fieldPred parent) => parent.data_type
  | .mk none .noPred => (none, [dataTypeIssue])
  | .mk none .nonField => (none, [dataTypeIssue])

/-- Spec-level description of data-type resolution: walk the predecessor
`Field` chain and take the nearest declared type, `none` when no ancestor
supplies one. -/
def nearestDataType : Field → Option String
  | .mk (some t) _ => some t
  | .mk none (.fieldPred parent) => nearestDataType parent
  | .mk none _ => none

/-- Spec-level reading of the amended regex-extraction contract: when the
pattern matches, the result is the first capture group that participated in
the match (possibly the empty string); when the pattern does not match, or
no group participated, the value is returned unchanged. -/
def specRegexExtract (value : String) (t : Transform) : String :=
  match t.regex with
  | none => value
  | some r =>
      match r.pymatch value with
      | none => value
      | some groups => ((groups.filterMap id).head?).getD value

/-- The claimed reading of C4: the first non-empty capture group of the
match. -/
def firstNonEmptyGroup (groups : List (Option String)) : Option String :=
  ((groups.filterMap id).filter (fun s => s ≠ "")).head?


/-- C10: transform application is the identity when there is nothing to
apply: no source, a source with an empty transform list, and a single
transform without a regex all return the value unchanged. -/
theorem transforms_identity_when_nothing_to_apply :
    ∀ value : String,
      apply_transforms_fn value none = value ∧
      (∀ ref : Option (List String), apply_transforms_fn value (some ⟨ref, []⟩) = value) ∧
      apply_transform_fn value ⟨none⟩ = value :=
  fun _ => ⟨rfl, fun _ => rfl, rfl⟩

/-- C5: if the first application of the regex-extraction transform strips
the matched prefix — so that the pattern no longer matches the result —
then applying the transform twice yields the same result as applying it
once. -/
theorem transform_twice_eq_once_after_strip
    (value : String) (r : Regex)
    (h : Regex.pymatch r (apply_transform_fn value ⟨some r⟩) = none) :
    apply_transform_fn (apply_transform_fn value ⟨some r⟩) ⟨some r⟩ =
      apply_transform_fn value ⟨some r⟩ := by
  generalize hv : apply_transform_fn value ⟨some r⟩ = v1 at h ⊢
  unfold apply_transform_fn
  simp [h]

/-- Witness for C5 at the pattern `a(.*)` and value `"ab"`: one
application yields `"b"`, which the pattern no longer matches. -/
theorem transform_twice_eq_once_after_strip_witness :
    apply_transform_fn
        (apply_transform_fn "ab" ⟨some (.cat (.chr 'a') (.group 1 (.star .anyChr)))⟩)
        ⟨some (.cat (.chr 'a') (.group 1 (.star .anyChr)))⟩ =
      apply_transform_fn "ab" ⟨some (.cat (.chr 'a') (.group 1 (.star .anyChr)))⟩ :=
  transform_twice_eq_once_after_strip "ab" (.cat (.chr 'a') (.group 1 (.star .anyChr)))
    (by decide)

/-- Counterexample to C4 as stated: for the pattern `(a*)(b+)` and value
`"bb"` the pattern matches with groups `("", "bb")`; the first non-empty
capture group is `"bb"`, but `apply_transform_fn` returns `""` (the first
group that participated, although empty). -/
theorem regex_extract_first_nonempty_cex :
    (Regex.pymatch
        (.cat (.group 1 (.star (.chr 'a'))) (.group 2 (.cat (.chr 'b') (.star (.chr 'b')))))
        "bb" = some [some "", some "bb"]) ∧
    firstNonEmptyGroup [some "", some "bb"] = some "bb" ∧
    apply_transform_fn "bb"
        ⟨some (.cat (.group 1 (.star (.chr 'a'))) (.group 2 (.cat (.chr 'b') (.star (.chr 'b')))))⟩
      = "" ∧
    ("" : String) ≠ "bb" := by
  refine ⟨by decide, by decide, by decide, by decide⟩

/-- C4 (amended): the regex-extraction transform returns the first capture
group that participated in the match — possibly the empty string — when
the pattern matches; it returns the original value unchanged when the
pattern does not match or when no capture group participated. -/
theorem regex_extract_first_participating :
    ∀ (value : String) (t : Transform),
      apply_transform_fn value t = specRegexExtract value t := by
  intro value t
  obtain ⟨reg⟩ := t
  unfold apply_transform_fn specRegexExtract
  cases reg with
  | none => rfl
  | some r =>
      cases hm : r.pymatch value with
      | none => simp [hm]
      | some groups =>
          simp only [hm]
          cases hf : groups.filterMap id with
          | nil => simp [hf]
          | cons g rest => simp [hf]

/-- Keys inserted by the inner fold of `recordColumns`. -/
theorem mem_foldl_insertKey (rec : JsonRecord) (acc : List String) (k : String) :
    (k ∈ rec.foldl (fun acc kv => if kv.1 ∈ acc then acc else acc ++ [kv.1]) acc) ↔
      k ∈ acc ∨ ∃ kv ∈ rec, kv.1 = k := by
  induction rec generalizing acc with
  | nil => simp
  | cons kv rest ih =>
      simp only [List.foldl_cons]
      rw [ih]
      by_cases h : kv.1 ∈ acc
      · simp only [if_pos h, List.exists_mem_cons_iff]
        have hkv : kv.1 = k → k ∈ acc := fun e => e ▸ h
        tauto
      · simp only [if_neg h, List.mem_append, List.mem_singleton,
          List.exists_mem_cons_iff]
        tauto

/-- A key is a column of `recordColumns` exactly when some record carries
it. -/
theorem mem_recordColumns (recs : List JsonRecord) (k : String) :
    k ∈ recordColumns recs ↔ ∃ rec ∈ recs, ∃ kv ∈ rec, kv.1 = k := by
  unfold recordColumns
  have aux : ∀ (rs : List JsonRecord) (acc : List String),
      (k ∈ rs.foldl
        (fun acc rec => rec.foldl (fun a kv => if kv.1 ∈ a then a else a ++ [kv.1]) acc)
        acc) ↔
        k ∈ acc ∨ ∃ rec ∈ rs, ∃ kv ∈ rec, kv.1 = k := by
    intro rs
    induction rs with
    | nil => simp
    | cons rec rest ih =>
        intro acc
        simp only [List.foldl_cons]
        rw [ih, mem_foldl_insertKey, List.exists_mem_cons_iff]
        aesop
  rw [aux]
  simp

/-- A successful `recLookup` exhibits a pair of the record. -/
theorem recLookup_some_mem {k : String} {v : JsonVal} :
    ∀ {rec : JsonRecord}, recLookup k rec = some v → ∃ kv ∈ rec, kv.1 = k ∧ kv.2 = v := by
  intro rec
  induction rec with
  | nil => intro h; simp [recLookup] at h
  | cons kv rest ih =>
      intro h
      by_cases hk : kv.1 = k
      · refine ⟨kv, List.mem_cons_self kv rest, hk, ?_⟩
        simp only [recLookup, if_pos hk, Option.some.injEq] at h
        exact h
      · simp only [recLookup, if_neg hk] at h
        obtain ⟨kv', hmem, hk', hv'⟩ := ih h
        exact ⟨kv', List.mem_cons_of_mem kv hmem, hk', hv'⟩

/-- C6: `Concatenate` fails on zero inputs with "No path to concatenate.";
on `k` inputs it returns a frame whose columns are exactly the three path
properties and whose `i`-th row holds the properties of input `i`, hence
exactly `k` rows. -/
theorem concatenate_call_spec :
    Concatenate.call [] = .error "No path to concatenate." ∧
    ∀ (paths : List Path), paths ≠ [] →
      Concatenate.call paths =
        .ok { cols := [FileProperty.filepath, FileProperty.filename, FileProperty.fullpath]
              rows := paths.map fun p => [p.filepath, p.filename, p.fullpath] } ∧
      (paths.map fun p => [p.filepath, p.filename, p.fullpath]).length = paths.length ∧
      ∀ i : Nat, (paths.map fun p => [p.filepath, p.filename, p.fullpath])[i]? =
        Option.map (fun p : Path => [p.filepath, p.filename, p.fullpath]) paths[i]? := by
  refine ⟨rfl, ?_⟩
  intro paths h
  refine ⟨?_, by simp, fun i => by simp⟩
  unfold Concatenate.call
  rw [if_pos (List.length_pos.2 h)]

/-- Witness for C6 at a single concrete path. -/
theorem concatenate_call_spec_witness :
    Concatenate.call [⟨"data/a.csv", "a.csv", "/root/data/a.csv"⟩] =
      .ok { cols := [FileProperty.filepath, FileProperty.filename, FileProperty.fullpath]
            rows := [["data/a.csv", "a.csv", "/root/data/a.csv"]] } :=
  (concatenate_call_spec.2 [⟨"data/a.csv", "a.csv", "/root/data/a.csv"⟩]
    (by simp)).1

/-- C7: the `Data` operation takes no input (it is a function of the
record set alone) and returns the frame built directly from the parsed
literal array: one row per literal record, columns exactly the keys
occurring in the records, and each record's fields mapped one-to-one to
the row's cells. -/
theorem data_call_spec :
    ∀ (node : RecordSet),
      Data.call node = pdFromRecords node.data ∧
      (Data.call node).rows.length = node.data.length ∧
      (∀ k, k ∈ (Data.call node).cols ↔ ∃ rec ∈ node.data, ∃ kv ∈ rec, kv.1 = k) ∧
      ∀ i rec k v, node.data[i]? = some rec → recLookup k rec = some v →
        (Data.call node).cellAt i k = some (some v) := by
  intro node
  refine ⟨rfl, by simp [Data.call, pdFromRecords], fun k => mem_recordColumns _ _, ?_⟩
  intro i rec k v hi hlk
  have hkmem : k ∈ recordColumns node.data := by
    rw [mem_recordColumns]
    obtain ⟨kv, hkv, hk1, _⟩ := recLookup_some_mem hlk
    exact ⟨rec, List.getElem?_mem hi, kv, hkv, hk1⟩
  have hex : ∃ x, x ∈ recordColumns node.data ∧ ((· = k) x : Bool) := ⟨k, hkmem, by simp⟩
  obtain ⟨ci, hci⟩ : ∃ ci, (recordColumns node.data).findIdx? (· = k) = some ci :=
    ⟨_, List.findIdx?_eq_some_of_exists hex⟩
  have hget := List.findIdx?_eq_some_iff_getElem.1 hci
  obtain ⟨hlt, hp, -⟩ := hget
  have hcik : (recordColumns node.data)[ci] = k := by simpa using hp
  show Frame.cellAt _ i k = some (some v)
  unfold Frame.cellAt Data.call pdFromRecords
  simp only [hci]
  rw [List.getD_eq_getElem?_getD, List.getElem?_map, hi]
  simp only [Option.map_some', Option.getD_some, List.getElem?_map]
  rw [List.getElem?_eq_getElem hlt, hcik]
  simp [hlk]

/-- Reduction of the two-operand branch of `Join.call` to the merge it
performs, given the normalised operand pair `(dfL, dfR)` and both key
columns present. -/
theorem join_call_two_ok (j : Join) (dfA dfB : Frame Cell) (l r : Source)
    (nL kL nR kR : String)
    (hl : l.reference = some [nL, kL]) (hr : r.reference = some [nR, kR])
    (dfL dfR : Frame Cell)
    (hp : (if kL ∉ dfA.cols ∨ kR ∉ dfB.cols then (dfB, dfA) else (dfA, dfB)) = (dfL, dfR))
    (hkL : kL ∈ dfL.cols) (hkR : kR ∈ dfR.cols) :
    Join.call j [dfA, dfB] (some l) (some r) =
      .ok ((dfL.transformKey kL l).merge dfR kL kR) := by
  simp only [Join.call, hl, hr, List.get?]
  rw [hp]
  simp only [List.length_cons, List.length_nil]
  rw [if_neg (by omega)]
  rw [if_neg (not_not_intro hkL), if_neg (not_not_intro hkR)]

/-- Reduction of the two-operand branch of `Join.call` to its error when
the left key is missing after normalisation. -/
theorem join_call_two_errL (j : Join) (dfA dfB : Frame Cell) (l r : Source)
    (nL kL nR kR : String)
    (hl : l.reference = some [nL, kL]) (hr : r.reference = some [nR, kR])
    (dfL dfR : Frame Cell)
    (hp : (if kL ∉ dfA.cols ∨ kR ∉ dfB.cols then (dfB, dfA) else (dfA, dfB)) = (dfL, dfR))
    (hkL : kL ∉ dfL.cols) :
    Join.call j [dfA, dfB] (some l) (some r) =
      .error ("Column \"" ++ kL ++ "\" does not exist in node \"" ++ nL ++
        "\". Existing columns: " ++ toString dfL.cols) := by
  simp only [Join.call, hl, hr, List.get?]
  rw [hp]
  simp only [List.length_cons, List.length_nil]
  rw [if_neg (by omega)]
  rw [if_pos hkL]
  simp

/-- Reduction of the two-operand branch of `Join.call` to its error when
the right key is missing after normalisation. -/
theorem join_call_two_errR (j : Join) (dfA dfB : Frame Cell) (l r : Source)
    (nL kL nR kR : String)
    (hl : l.reference = some [nL, kL]) (hr : r.reference = some [nR, kR])
    (dfL dfR : Frame Cell)
    (hp : (if kL ∉ dfA.cols ∨ kR ∉ dfB.cols then (dfB, dfA) else (dfA, dfB)) = (dfL, dfR))
    (hkL : kL ∈ dfL.cols) (hkR : kR ∉ dfR.cols) :
    Join.call j [dfA, dfB] (some l) (some r) =
      .error ("Column \"" ++ kR ++ "\" does not exist in node \"" ++ nR ++
        "\". Existing columns: " ++ toString dfR.cols) := by
  simp only [Join.call, hl, hr, List.get?]
  rw [hp]
  simp only [List.length_cons, List.length_nil]
  rw [if_neg (by omega)]
  rw [if_neg (not_not_intro hkL), if_pos hkR]
  simp

/-- Every left row survives a left-outer merge: either extended by the
first matching right row (with more output rows for further matches), or
NaN-filled when no right key matches. -/
theorem merge_preserves_left (L R : Frame Cell) (kL kR : String) :
    ∀ row ∈ L.rows, ∃ tail, row ++ tail ∈ (L.merge R kL kR).rows ∧
      ((tail = List.replicate R.cols.length none ∧
          ∀ s ∈ R.rows, getCol R.cols s kR ≠ getCol L.cols row kL) ∨
        (tail ∈ R.rows ∧ getCol R.cols tail kR = getCol L.cols row kL)) := by
  intro row hrow
  show ∃ tail, _ ∈ (L.rows.flatMap _) ∧ _
  cases hf : R.rows.filter (fun s => getCol R.cols s kR = getCol L.cols row kL) with
  | nil =>
      refine ⟨List.replicate R.cols.length none, ?_, Or.inl ⟨rfl, ?_⟩⟩
      · refine List.mem_flatMap_of_mem hrow ?_
        rw [hf]
        exact List.mem_singleton.2 rfl
      · intro s hs
        have := List.filter_eq_nil_iff.1 hf s hs
        simpa using this
  | cons m ms =>
      have hm : m ∈ R.rows.filter (fun s => getCol R.cols s kR = getCol L.cols row kL) := by
        rw [hf]; exact List.mem_cons_self m ms
      have hm' := List.mem_filter.1 hm
      refine ⟨m, ?_, Or.inr ⟨hm'.1, by simpa using hm'.2⟩⟩
      refine List.mem_flatMap_of_mem hrow ?_
      rw [hf]
      exact List.mem_map_of_mem (fun s => row ++ s) (List.mem_cons_self m ms)

/-- Counterexample to C1 as stated: both declared key columns occur in both
operands, so the swap test fires in neither order; each order keeps its
first operand as the structural left and the two merged results differ. -/
theorem join_order_independence_cex :
    Join.call ⟨"jx"⟩
        [⟨["k1", "k2"], [[some "a", some "b"]]⟩, ⟨["k1", "k2"], [[some "c", some "d"]]⟩]
        (some ⟨some ["nodeL", "k1"], []⟩) (some ⟨some ["nodeR", "k2"], []⟩) =
      .ok ⟨["k1", "k2", "k1", "k2"], [[some "a", some "b", none, none]]⟩ ∧
    Join.call ⟨"jx"⟩
        [⟨["k1", "k2"], [[some "c", some "d"]]⟩, ⟨["k1", "k2"], [[some "a", some "b"]]⟩]
        (some ⟨some ["nodeL", "k1"], []⟩) (some ⟨some ["nodeR", "k2"], []⟩) =
      .ok ⟨["k1", "k2", "k1", "k2"], [[some "c", some "d", none, none]]⟩ ∧
    (⟨["k1", "k2", "k1", "k2"], [[some "a", some "b", none, none]]⟩ : Frame Cell) ≠
      ⟨["k1", "k2", "k1", "k2"], [[some "c", some "d", none, none]]⟩ :=
  ⟨rfl, rfl, by decide⟩

/-- C1 (amended): calling `Join` with the two tabular operands in either
order produces an identical merged result provided the declared keys
disambiguate the operands — the declared left key is a column of the left
table and is not one of the right table, or symmetrically for the right
key; the operation swaps operand roles when the declared left key is not
present in the first table (or the declared right key not in the
second). -/
theorem join_order_independence
    (j : Join) (A B : Frame Cell) (l r : Source)
    (nL kL nR kR : String)
    (hl : l.reference = some [nL, kL]) (hr : r.reference = some [nR, kR])
    (hA : kL ∈ A.cols) (hB : kR ∈ B.cols)
    (hdisj : kL ∉ B.cols ∨ kR ∉ A.cols) :
    Join.call j [A, B] (some l) (some r) = Join.call j [B, A] (some l) (some r) := by
  have hp1 : (if kL ∉ A.cols ∨ kR ∉ B.cols then (B, A) else (A, B)) = (A, B) := by
    rw [if_neg]
    push_neg
    exact ⟨hA, hB⟩
  have hp2 : (if kL ∉ B.cols ∨ kR ∉ A.cols then (A, B) else (B, A)) = (A, B) :=
    if_pos hdisj
  rw [join_call_two_ok j A B l r nL kL nR kR hl hr A B hp1 hA hB,
    join_call_two_ok j B A l r nL kL nR kR hl hr A B hp2 hA hB]

/-- Witness for C1 (amended) on single-column operands with distinct key
names. -/
theorem join_order_independence_witness :
    Join.call ⟨"jw"⟩
        [⟨["k1"], [[some "a"]]⟩, ⟨["k2"], [[some "a"]]⟩]
        (some ⟨some ["nodeL", "k1"], []⟩) (some ⟨some ["nodeR", "k2"], []⟩) =
      Join.call ⟨"jw"⟩
        [⟨["k2"], [[some "a"]]⟩, ⟨["k1"], [[some "a"]]⟩]
        (some ⟨some ["nodeL", "k1"], []⟩) (some ⟨some ["nodeR", "k2"], []⟩) :=
  join_order_independence ⟨"jw"⟩ ⟨["k1"], [[some "a"]]⟩ ⟨["k2"], [[some "a"]]⟩
    ⟨some ["nodeL", "k1"], []⟩ ⟨some ["nodeR", "k2"], []⟩ "nodeL" "k1" "nodeR" "k2"
    rfl rfl (by decide) (by decide) (Or.inl (by decide))

/-- Counterexample to C2 as stated: a call with a single operand — fewer
than two — returns that operand unchanged instead of failing. -/
theorem join_arity_cex :
    Join.call ⟨"jc"⟩ [⟨["c"], [[some "v"]]⟩] none none =
      .ok ⟨["c"], [[some "v"]]⟩ :=
  rfl

/-- C2 (amended): `Join` joins exactly two operands; zero or more than two
inputs fail with the `NotImplementedError` naming the offending arity,
while exactly one input is returned unchanged (not an error). -/
theorem join_arity (j : Join) (args : List (Frame Cell)) (l r : Option Source) :
    (args.length = 0 ∨ 2 < args.length →
      Join.call j args l r =
        .error ("Unsupported: Trying to joing " ++ toString args.length ++
          " pd.DataFrames.")) ∧
    (∀ df, args = [df] → Join.call j args l r = .ok df) := by
  constructor
  · intro h
    match args, h with
    | [], _ => rfl
    | [a], h => simp at h
    | [a, b], h => simp at h
    | a :: b :: c :: rest, _ => rfl
  · rintro df rfl
    rfl

/-- Witness for C2 (amended) at the empty input list. -/
theorem join_arity_witness :
    Join.call ⟨"jz"⟩ ([] : List (Frame Cell)) none none =
      .error ("Unsupported: Trying to joing " ++ toString (0 : Nat) ++
        " pd.DataFrames.") :=
  (join_arity ⟨"jz"⟩ [] none none).1 (Or.inl rfl)

/-- C8: when a `Join` fails because a declared key column is missing from
its operand after operand-role normalisation, the error message is built
from — and so names — the offending column and the node it was declared
in. -/
theorem join_missing_key_error
    (j : Join) (A B : Frame Cell) (l r : Source)
    (nL kL nR kR : String)
    (hl : l.reference = some [nL, kL]) (hr : r.reference = some [nR, kR])
    (dfL dfR : Frame Cell)
    (hp : (if kL ∉ A.cols ∨ kR ∉ B.cols then (B, A) else (A, B)) = (dfL, dfR)) :
    (kL ∉ dfL.cols →
      Join.call j [A, B] (some l) (some r) =
        .error ("Column \"" ++ kL ++ "\" does not exist in node \"" ++ nL ++
          "\". Existing columns: " ++ toString dfL.cols)) ∧
    (kL ∈ dfL.cols → kR ∉ dfR.cols →
      Join.call j [A, B] (some l) (some r) =
        .error ("Column \"" ++ kR ++ "\" does not exist in node \"" ++ nR ++
          "\". Existing columns: " ++ toString dfR.cols)) :=
  ⟨fun hkL => join_call_two_errL j A B l r nL kL nR kR hl hr dfL dfR hp hkL,
   fun hkL hkR => join_call_two_errR j A B l r nL kL nR kR hl hr dfL dfR hp hkL hkR⟩

/-- Witness for C8: both keys are missing from both operands, the swap
fires, and the failure names the left key and its declared node. -/
theorem join_missing_key_error_witness :
    Join.call ⟨"jm"⟩ [⟨["a"], []⟩, ⟨["b"], []⟩]
        (some ⟨some ["nodeL", "ka"], []⟩) (some ⟨some ["nodeR", "kb"], []⟩) =
      .error ("Column \"" ++ "ka" ++ "\" does not exist in node \"" ++ "nodeL" ++
        "\". Existing columns: " ++ toString (⟨["b"], []⟩ : Frame Cell).cols) :=
  (join_missing_key_error ⟨"jm"⟩ ⟨["a"], []⟩ ⟨["b"], []⟩
    ⟨some ["nodeL", "ka"], []⟩ ⟨some ["nodeR", "kb"], []⟩ "nodeL" "ka" "nodeR" "kb"
    rfl rfl ⟨["b"], []⟩ ⟨["a"], []⟩ (by decide)).1 (by decide)

/-- Witness for C7 at a two-record literal array: the first record's
`name` field lands in row 0, column `name`. -/
theorem data_call_spec_witness :
    (Data.call ⟨[[("name", JsonVal.str "x"), ("age", JsonVal.num 3)],
        [("name", JsonVal.str "y")]]⟩).cellAt 0 "name" = some (some (JsonVal.str "x")) :=
  (data_call_spec ⟨[[("name", JsonVal.str "x"), ("age", JsonVal.num 3)],
      [("name", JsonVal.str "y")]]⟩).2.2.2
    0 [("name", JsonVal.str "x"), ("age", JsonVal.num 3)] "name" (JsonVal.str "x")
    (by decide) (by decide)

/-- C3: a successful two-operand `Join` equals the left-outer merge of the
normalised operands on the declared keys, with the left key column
transformed value-by-value before matching; every row of the (possibly
swapped, transformed) left table appears in the result, extended by a
matching right row where the keys agree and by NaN cells otherwise. -/
theorem join_left_outer_merge
    (j : Join) (A B : Frame Cell) (l r : Source)
    (nL kL nR kR : String)
    (hl : l.reference = some [nL, kL]) (hr : r.reference = some [nR, kR])
    (dfL dfR : Frame Cell)
    (hp : (if kL ∉ A.cols ∨ kR ∉ B.cols then (B, A) else (A, B)) = (dfL, dfR))
    (hkL : kL ∈ dfL.cols) (hkR : kR ∈ dfR.cols) :
    Join.call j [A, B] (some l) (some r) =
      .ok ((dfL.transformKey kL l).merge dfR kL kR) ∧
    ((dfL.transformKey kL l).merge dfR kL kR).cols = dfL.cols ++ dfR.cols ∧
    ∀ row ∈ (dfL.transformKey kL l).rows,
      ∃ tail, row ++ tail ∈ ((dfL.transformKey kL l).merge dfR kL kR).rows ∧
        ((tail = List.replicate dfR.cols.length none ∧
            ∀ s ∈ dfR.rows, getCol dfR.cols s kR ≠ getCol dfL.cols row kL) ∨
          (tail ∈ dfR.rows ∧ getCol dfR.cols tail kR = getCol dfL.cols row kL)) := by
  refine ⟨join_call_two_ok j A B l r nL kL nR kR hl hr dfL dfR hp hkL hkR, rfl, ?_⟩
  exact merge_preserves_left (dfL.transformKey kL l) dfR kL kR

/-- Witness for C3: a two-row left table joined to a one-row right table;
one left row finds its match, the other is NaN-extended. -/
theorem join_left_outer_merge_witness :
    Join.call ⟨"jo"⟩
        [⟨["k"], [[some "a1"], [some "zz"]]⟩, ⟨["k2", "v"], [[some "a1", some "w"]]⟩]
        (some ⟨some ["nA", "k"], []⟩) (some ⟨some ["nB", "k2"], []⟩) =
      .ok ((Frame.transformKey ⟨["k"], [[some "a1"], [some "zz"]]⟩ "k"
          ⟨some ["nA", "k"], []⟩).merge ⟨["k2", "v"], [[some "a1", some "w"]]⟩ "k" "k2") ∧
    ((Frame.transformKey ⟨["k"], [[some "a1"], [some "zz"]]⟩ "k"
        ⟨some ["nA", "k"], []⟩).merge ⟨["k2", "v"], [[some "a1", some "w"]]⟩ "k" "k2").cols =
      ["k"] ++ ["k2", "v"] ∧
    ∀ row ∈ (Frame.transformKey ⟨["k"], [[some "a1"], [some "zz"]]⟩ "k"
        ⟨some ["nA", "k"], []⟩).rows,
      ∃ tail, row ++ tail ∈
          ((Frame.transformKey ⟨["k"], [[some "a1"], [some "zz"]]⟩ "k"
            ⟨some ["nA", "k"], []⟩).merge
              ⟨["k2", "v"], [[some "a1", some "w"]]⟩ "k" "k2").rows ∧
        ((tail = List.replicate (["k2", "v"] : List String).length none ∧
            ∀ s ∈ [[some "a1", some "w"]],
              getCol ["k2", "v"] s "k2" ≠ getCol ["k"] row "k") ∨
          (tail ∈ [[some "a1", some "w"]] ∧
            getCol ["k2", "v"] tail "k2" = getCol ["k"] row "k")) :=
  join_left_outer_merge ⟨"jo"⟩
    ⟨["k"], [[some "a1"], [some "zz"]]⟩ ⟨["k2", "v"], [[some "a1", some "w"]]⟩
    ⟨some ["nA", "k"], []⟩ ⟨some ["nB", "k2"], []⟩ "nA" "k" "nB" "k2" rfl rfl
    ⟨["k"], [[some "a1"], [some "zz"]]⟩ ⟨["k2", "v"], [[some "a1", some "w"]]⟩
    (by decide) (by decide) (by decide)

/-- `Field.data_type` resolves to the nearest declared type on the
predecessor chain, and records the missing-data-type issue exactly when no
predecessor supplies one. -/
theorem field_data_type_aux : ∀ f : Field,
    (Field.data_type f).1 = nearestDataType f ∧
    (Field.data_type f).2 = (if nearestDataType f = none then [dataTypeIssue] else [])
  | .mk (some t) p => by simp [Field.data_type, nearestDataType]
  | .mk none (.fieldPred parent) => by
      have ih := field_data_type_aux parent
      simpa [Field.data_type, nearestDataType] using ih
  | .mk none .noPred => by simp [Field.data_type, nearestDataType]
  | .mk none .nonField => by simp [Field.data_type, nearestDataType]

/-- C9: a `Field` without its own declared type resolves to the nearest
ancestor's declared type along the predecessor chain; when no predecessor
`Field` supplies one, resolution yields no type and records exactly one
error, whose text names the missing data-type property
`http://mlcommons.org/schema/dataType`. -/
theorem field_data_type_spec :
    ∀ f : Field,
      (Field.data_type f).1 = nearestDataType f ∧
      (nearestDataType f = none →
        (Field.data_type f).1 = none ∧
        (Field.data_type f).2 = [dataTypeIssue] ∧
        ∃ pre post, dataTypeIssue = pre ++ ML_COMMONS_DATA_TYPE ++ post) ∧
      ((nearestDataType f).isSome → (Field.data_type f).2 = []) := by
  intro f
  obtain ⟨h1, h2⟩ := field_data_type_aux f
  refine ⟨h1, fun hn => ⟨h1.trans hn, by rw [h2, if_pos hn],
    "The field does not specify any ", ", neither does any of its predecessor.", rfl⟩,
    fun hs => ?_⟩
  rw [h2, if_neg]
  intro hn
  rw [hn] at hs
  simp at hs

/-- Witness for C9 at a typeless field whose only predecessor field is
itself typeless with no predecessor. -/
theorem field_data_type_spec_witness :
    (Field.data_type (.mk none (.fieldPred (.mk none .noPred)))).2 = [dataTypeIssue] ∧
    ∃ pre post, dataTypeIssue = pre ++ ML_COMMONS_DATA_TYPE ++ post :=
  ⟨((field_data_type_spec (.mk none (.fieldPred (.mk none .noPred)))).2.1 rfl).2.1,
   ((field_data_type_spec (.mk none (.fieldPred (.mk none .noPred)))).2.1 rfl).2.2⟩

end Croissant
